import Mathlib

/-!
Shallow Lean embedding of the core of the `percepta` browser extension
(streaming session manager, context chunker, worker lifecycle and message
delivery layers), together with theorems checking the natural-language
specification against this embedding.

JavaScript strings are modelled as Lean `String`s (sequences of Unicode
scalar values); UTF-8 byte sizes are computed per character.  JavaScript
`Map`s are modelled as association lists, JavaScript objects as structures
with `Option` fields where a field may be absent, and thrown exceptions as
`Except` values.  Asynchronous host interactions (the model stream, the
quota counters, message transport) are supplied as explicit environment
records, so every function is executable.
-/

namespace Percepta

/-- UTF-8 length of a character list: sum of the per-character sizes
(structural version used in proofs). -/
def utf8Len : List Char → Nat
  | [] => 0
  | c :: cs => c.utf8Size + utf8Len cs

/-- Tail-recursive form of `utf8Len`, so concrete witnesses evaluate in
constant stack space. -/
def utf8LenTR (l : List Char) : Nat := l.foldl (fun n c => n + c.utf8Size) 0

/-- `getTextSizeInBytes` from `contextChunker.js`: UTF-8 byte size of a string
(`new Blob([text]).size`). -/
def getTextSizeInBytes (s : String) : Nat := utf8LenTR s.data

theorem utf8Len_foldl_shift (l : List Char) :
    ∀ acc : Nat, l.foldl (fun n c => n + c.utf8Size) acc = acc + utf8Len l := by
  induction l with
  | nil => intro acc; simp [utf8Len]
  | cons c cs ih =>
    intro acc
    simp only [List.foldl_cons, utf8Len, ih (acc + c.utf8Size)]
    omega

theorem getTextSizeInBytes_eq (s : String) :
    getTextSizeInBytes s = utf8Len s.data := by
  unfold getTextSizeInBytes utf8LenTR
  simpa using utf8Len_foldl_shift s.data 0

/-- Model of JavaScript `String.prototype.startsWith`. -/
def jsStartsWith (s pre : String) : Bool := pre.data.isPrefixOf s.data

/-- Model of JavaScript `String.prototype.includes` (substring test). -/
def jsIncludes (s pat : String) : Bool :=
  (List.range (s.data.length + 1)).any fun i => pat.data.isPrefixOf (s.data.drop i)

/-- Model of JavaScript `a || b` for a possibly-absent string `a`
(`none` and the empty string are falsy). -/
def jsOr (a : Option String) (b : String) : String :=
  match a with
  | some s => if s = "" then b else s
  | none => b

theorem utf8Len_append (l₁ l₂ : List Char) :
    utf8Len (l₁ ++ l₂) = utf8Len l₁ + utf8Len l₂ := by
  induction l₁ with
  | nil => simp [utf8Len]
  | cons c cs ih => simp [utf8Len, ih]; omega

theorem string_data_append (a b : String) : (a ++ b).data = a.data ++ b.data := rfl

theorem getTextSizeInBytes_append (a b : String) :
    getTextSizeInBytes (a ++ b) = getTextSizeInBytes a + getTextSizeInBytes b := by
  simp [getTextSizeInBytes_eq, string_data_append, utf8Len_append]

theorem utf8Len_take_le (l : List Char) (n : Nat) : utf8Len (l.take n) ≤ utf8Len l := by
  induction l generalizing n with
  | nil => simp [utf8Len]
  | cons c cs ih =>
    cases n with
    | zero => simp [utf8Len]
    | succ m =>
      simp only [List.take_succ_cons, utf8Len]
      exact Nat.add_le_add_left (ih m) _

theorem utf8Len_reverse (l : List Char) : utf8Len l.reverse = utf8Len l := by
  induction l with
  | nil => rfl
  | cons c cs ih => simp [List.reverse_cons, utf8Len_append, utf8Len, ih]; omega

theorem utf8Len_replicate (n : Nat) (c : Char) :
    utf8Len (List.replicate n c) = n * c.utf8Size := by
  induction n with
  | zero => simp [utf8Len]
  | succ m ih => simp [List.replicate, utf8Len, ih]; ring

theorem utf8Len_dropWhile_le (p : Char → Bool) (l : List Char) :
    utf8Len (l.dropWhile p) ≤ utf8Len l := by
  induction l with
  | nil => simp [List.dropWhile]
  | cons c cs ih =>
    by_cases h : p c
    · simp only [List.dropWhile, h]
      calc utf8Len (cs.dropWhile p) ≤ utf8Len cs := by
              simpa using ih
        _ ≤ c.utf8Size + utf8Len cs := Nat.le_add_left _ _
    · simp [List.dropWhile, h, utf8Len]

/-! ## Context chunker (`src/ai/contextChunker.js`) -/

/-- `MAX_CONTEXT_SIZE` from `contextChunker.js`: 10 KiB budget. -/
def MAX_CONTEXT_SIZE : Nat := 10 * 1024

/-- `FOOTER_MESSAGE` from `contextChunker.js`. -/
def FOOTER_MESSAGE : String :=
  "END OF CONTEXT — use only this data. Do not invent or guess links."

/-- Model of JavaScript `String.prototype.trim` (strip leading and trailing
whitespace). -/
def jsTrim (s : String) : String :=
  String.mk (((s.data.dropWhile Char.isWhitespace).reverse.dropWhile
      Char.isWhitespace).reverse)

/-- Model of JavaScript `result.lastIndexOf(" ")`: index of the last space
character, `-1` when there is none. -/
def jsLastIndexOfSpace (s : String) : Int :=
  match s.data.reverse.findIdx? (· = ' ') with
  | some i => (s.data.length : Int) - 1 - (i : Int)
  | none => -1

/-- The binary-search loop inside `truncateText`: finds the longest prefix of
`text` whose UTF-8 size fits in `maxBytes`, mirroring the `while (low <= high)`
loop of the source (`text.substring(0, mid)` becomes a character-prefix). -/
def truncLoop (text : String) (maxBytes : Int) (low : Nat) (high : Int)
    (result : String) : String :=
  if h : (low : Int) ≤ high then
    let mid := (low + high.toNat) / 2
    let sub := String.mk (text.data.take mid)
    if (getTextSizeInBytes sub : Int) ≤ maxBytes then
      truncLoop text maxBytes (mid + 1) high sub
    else
      truncLoop text maxBytes low ((mid : Int) - 1) result
  else result
termination_by (high + 1 - (low : Int)).toNat
decreasing_by
  all_goals omega

/-- `truncateText` from `contextChunker.js`: truncate `text` to at most
`maxBytes` UTF-8 bytes via binary search, then back off to the last word
boundary when that loses at most 20% of the text, and trim.  The source
compares `lastSpace > result.length * 0.8` with floating-point arithmetic;
the model uses the exact rational comparison `5 * lastSpace > 4 * length`,
which only differs on double-rounding ties and which no theorem below
depends on.  `wordBoundaryCut` is the back-off-to-last-space step. -/
def wordBoundaryCut (result : String) : String :=
  if 5 * jsLastIndexOfSpace result > 4 * (result.data.length : Int) then
    String.mk (result.data.take (jsLastIndexOfSpace result).toNat)
  else result

/-- `truncateText`, continued: binary-search prefix, word-boundary back-off,
trim. -/
def truncateText (text : String) (maxBytes : Int) : String :=
  if text = "" then ""
  else if (getTextSizeInBytes text : Int) ≤ maxBytes then text
  else
    jsTrim (wordBoundaryCut (truncLoop text maxBytes 0 (text.data.length : Int) ""))

/-- `truncateArray` from `contextChunker.js`: keep the longest prefix of
`items` such that the running total of `size(item + "\n")` stays within
`maxBytes`. -/
def truncateArray (items : List String) (maxBytes : Int) : List String :=
  go items 0
where
  go : List String → Nat → List String
    | [], _ => []
    | item :: rest, currentSize =>
      let itemSize := getTextSizeInBytes (item ++ "\n")
      if ((currentSize + itemSize : Nat) : Int) > maxBytes then []
      else item :: go rest (currentSize + itemSize)

/-- Model of JavaScript `Array.prototype.join(sep)`. -/
def jsJoin (items : List String) (sep : String) : String :=
  match items with
  | [] => ""
  | x :: rest => rest.foldl (fun acc y => acc ++ sep ++ y) x

/-- Input record of `chunkContext` (signals supplied by the page extractor).
`articleContent` is `none` when the page signal is `null`. -/
structure ContextData where
  title : String := ""
  meta : List String := []
  headings : List String := []
  links : List String := []
  snippet : String := ""
  url : String := ""
  articleContent : Option String := none
  isArticle : Bool := false

/-- Intermediate state of `chunkContext`: the accumulated `context` string and
the `remainingBytes` counter (a JavaScript number, possibly negative). -/
structure ChunkSt where
  context : String
  remainingBytes : Int

/-- The common shape of the `META TAGS` / `HEADINGS` / `LINKS` blocks of
`chunkContext` (lines 154-213 of the source): skip the block when the item
list is empty or no budget remains; append the whole section when it fits
(debiting `remainingBytes`); otherwise truncate the item list against a
50-byte reserve and, when anything survives, append it and recompute
`remainingBytes` from scratch. -/
def addListSection (header : String) (items : List String) (st : ChunkSt) :
    ChunkSt :=
  if items.length > 0 ∧ st.remainingBytes > 0 then
    if (getTextSizeInBytes (header ++ jsJoin items "\n" ++ "\n\n") : Int) ≤
        st.remainingBytes then
      ⟨st.context ++ (header ++ jsJoin items "\n" ++ "\n\n"),
       st.remainingBytes -
         getTextSizeInBytes (header ++ jsJoin items "\n" ++ "\n\n")⟩
    else
      if (truncateArray items (st.remainingBytes - 50)).length > 0 then
        ⟨st.context ++ (header ++
           jsJoin (truncateArray items (st.remainingBytes - 50)) "\n" ++ "\n\n"),
         (MAX_CONTEXT_SIZE : Int) -
           getTextSizeInBytes (st.context ++ (header ++
             jsJoin (truncateArray items (st.remainingBytes - 50)) "\n" ++ "\n\n")) -
           getTextSizeInBytes FOOTER_MESSAGE⟩
      else st
  else st

/-- The `META TAGS` block of `chunkContext` (lines 154-170 of the source). -/
def addMetaSection (meta : List String) (st : ChunkSt) : ChunkSt :=
  addListSection "META TAGS:\n" meta st

/-- The `HEADINGS` block of `chunkContext` (lines 173-194 of the source); the
headings are rendered as `- <h>` lines. -/
def addHeadingsSection (headings : List String) (st : ChunkSt) : ChunkSt :=
  addListSection "HEADINGS:\n" (headings.map (fun h => "- " ++ h)) st

/-- The `LINKS` block of `chunkContext` (lines 197-213 of the source). -/
def addLinksSection (links : List String) (st : ChunkSt) : ChunkSt :=
  addListSection "LINKS:\n" links st

/-- The `PAGE TEXT (SNAPSHOT)` block of `chunkContext` (lines 216-229 of the
source); it appends to the context without updating `remainingBytes`, the
snippet truncation keeps a 100-byte reserve and appends an ellipsis. -/
def addSnippetSection (snippet : String) (st : ChunkSt) : String :=
  if snippet ≠ "" ∧ st.remainingBytes > 0 then
    if (getTextSizeInBytes ("PAGE TEXT (SNAPSHOT):\n" ++ snippet ++ "\n\n") : Int) ≤
        st.remainingBytes then
      st.context ++ ("PAGE TEXT (SNAPSHOT):\n" ++ snippet ++ "\n\n")
    else
      if truncateText snippet (st.remainingBytes - 100) ≠ "" then
        st.context ++ ("PAGE TEXT (SNAPSHOT):\n" ++
          truncateText snippet (st.remainingBytes - 100) ++ "...\n\n")
      else st.context
  else st.context

/-- The mandatory header of `chunkContext`: the `URL:` line plus, when the
title is truthy, the `TITLE:` line. -/
def chunkHeader (cd : ContextData) : String :=
  let context0 := "URL: " ++ cd.url ++ "\n\n"
  if cd.title ≠ "" then context0 ++ ("TITLE: " ++ cd.title ++ "\n\n") else context0

/-- The article part appended by the article branch of `chunkContext`:
either the whole article (plus a blank-line separator) when it fits, or the
truncated article followed by `"...\n\n"`, or nothing when the truncation
came back empty. -/
def articlePart (a : String) (remainingBytes : Int) : String :=
  if (getTextSizeInBytes a : Int) ≤ remainingBytes then a ++ "\n\n"
  else
    if truncateText a (remainingBytes - 100) ≠ "" then
      truncateText a (remainingBytes - 100) ++ "...\n\n"
    else ""

/-- The `remainingBytes` value of `chunkContext` right after the mandatory
header: the budget minus the header and the reserved footer. -/
def remainingAfterHeader (cd : ContextData) : Int :=
  (MAX_CONTEXT_SIZE : Int) - getTextSizeInBytes (chunkHeader cd) -
    getTextSizeInBytes FOOTER_MESSAGE

/-- `chunkContext` from `contextChunker.js`: pack the page signals into a
byte-budgeted context string, prioritising article content (for article
pages with a truthy extracted article and positive remaining budget, in
which case meta/headings/links/snippet are skipped), then meta tags,
headings, links and the page snippet, always ending with the footer. -/
def chunkContext (cd : ContextData) : String :=
  if cd.isArticle ∧ cd.articleContent.isSome ∧ cd.articleContent ≠ some "" ∧
      remainingAfterHeader cd > 0 then
    chunkHeader cd ++
      articlePart (cd.articleContent.getD "") (remainingAfterHeader cd) ++
      FOOTER_MESSAGE
  else
    addSnippetSection cd.snippet
        (addLinksSection cd.links
          (addHeadingsSection cd.headings
            (addMetaSection cd.meta
              ⟨chunkHeader cd, remainingAfterHeader cd⟩))) ++
      FOOTER_MESSAGE

/-! ## Session manager (`src/ai/sessionManager.js`, worker side) -/

/-- A JavaScript error value as far as the session manager inspects it:
`name`, `message` and the tagged `code` property. -/
structure JsError where
  name : Option String := none
  message : Option String := none
  code : Option String := none
deriving DecidableEq, Repr

/-- Model of `chrome.i18n.getMessage`: the browser localization lookup,
modelled abstractly as key-tagged strings. -/
def i18nGetMessage (key : String) : String := "i18n:" ++ key

/-- English entries of `FALLBACK_ERROR_MESSAGES` in `sessionManager.js`. -/
def fallbackMessageEn : String → String
  | "error_language_model_unavailable" =>
      "AI language model is not available. Please ensure your browser supports the Prompt API."
  | "error_language_model_failed" =>
      "Failed to create language model. Please try again."
  | "error_quota_exceeded" => "AI quota exceeded. Please wait and try again later."
  | "error_network" => "Network error occurred. Please check your connection."
  | "error_image_processing" => "Failed to process image. Please try again."
  | "error_session_not_found" => "Session not found. Please start a new analysis."
  | "error_input_too_large" =>
      "The content is too large to process. Please try on a simpler page."
  | _ => "An error occurred. Please try again."

/-- Spanish entries of `FALLBACK_ERROR_MESSAGES` in `sessionManager.js`. -/
def fallbackMessageEs : String → String
  | "error_language_model_unavailable" =>
      "El modelo de lenguaje de IA no está disponible. Asegúrate de que tu navegador sea compatible con la API de Prompt."
  | "error_language_model_failed" =>
      "No se pudo crear el modelo de lenguaje. Por favor, inténtalo de nuevo."
  | "error_quota_exceeded" =>
      "Se ha excedido la cuota de IA. Por favor, espera e inténtalo de nuevo más tarde."
  | "error_network" => "Se produjo un error de red. Por favor, verifica tu conexión."
  | "error_image_processing" =>
      "No se pudo procesar la imagen. Por favor, inténtalo de nuevo."
  | "error_session_not_found" =>
      "Sesión no encontrada. Por favor, inicia un nuevo análisis."
  | "error_input_too_large" =>
      "El contenido es demasiado grande para procesar. Por favor, inténtalo en una página más simple."
  | _ => "Ocurrió un error. Por favor, inténtalo de nuevo."

/-- `getErrorMessage` from `sessionManager.js`: map an error's code/name to a
user-facing message in the user's language (only `en` and `es` supported). -/
def getErrorMessage (error : JsError) (userLanguage : String) : String :=
  let messageKey :=
    if error.code = some ("LANGUAGE_MODEL_UNAVAILABLE") then
      "error_language_model_unavailable"
    else if error.code = some ("LANGUAGE_MODEL_CREATION_FAILED") then
      "error_language_model_failed"
    else if error.code = some ("QUOTA_EXCEEDED") ∨ error.name = some ("QuotaExceededError") then
      (if (match error.message with
            | some m => jsIncludes m ("input is too large")
            | none => false) then "error_input_too_large"
       else "error_quota_exceeded")
    else if error.code = some ("NETWORK_ERROR") ∨ error.name = some ("NetworkError") then
      "error_network"
    else if error.code = some ("IMAGE_PROCESSING_ERROR") then "error_image_processing"
    else if error.code = some ("SESSION_NOT_FOUND") then "error_session_not_found"
    else "error_generic"
  if userLanguage = "es" then fallbackMessageEs messageKey else fallbackMessageEn messageKey

/-- A provider model session as the session manager observes it: the
`inputUsage`/`inputQuota` counters read at a given chunk count (`none` when
they are not both numbers).  The opaque generation handle itself is carried
by the environment records below. -/
structure Session where
  usageAt : Nat → Option (Nat × Nat)

/-- Result record of `checkQuota` in `sessionManager.js`. -/
structure QuotaCheck where
  exceeded : Bool
  usage : Option Nat := none
  quota : Option Nat := none
  message : Option String := none

/-- `checkQuota` from `sessionManager.js`, evaluated at chunk count `t`:
exceeded iff both counters are numbers and `usage >= quota`.  (The
approaching-quota warning at 90% is only a log and is omitted.) -/
def checkQuota (session : Session) (t : Nat) : QuotaCheck :=
  match session.usageAt t with
  | some (usage, quota) =>
    if usage ≥ quota then
      { exceeded := true, usage := some usage, quota := some quota,
        message := some (i18nGetMessage ("error_quota_exceeded")) }
    else { exceeded := false }
  | none => { exceeded := false }

/-- The per-chunk buffer merge of the streaming loops in `sessionManager.js`
(lines 277-284 and 398-405): if the buffer is truthy and the chunk starts
with it, the chunk is the new cumulative buffer; otherwise append. -/
def mergeChunk (fullText chunk : String) : String :=
  if fullText ≠ "" ∧ jsStartsWith chunk fullText then chunk else fullText ++ chunk

/-- Outcome of a streaming loop: completed with the final buffer, or aborted
by the periodic quota check with the partial buffer and the quota message. -/
inductive LoopOutcome
  | completed (fullText : String)
  | quotaAborted (partialText : String) (message : Option String)
deriving DecidableEq, Repr

/-- The `for await (const chunk of stream)` loop shared verbatim by
`createSession` and `sendPromptStreaming`: count the chunk, re-check quota on
every 10th chunk (aborting with the partial text when exceeded), merge the
chunk into the buffer, and invoke the stream callback with the buffer.  The
second component collects the values passed to `onStream`. -/
def streamLoop (session : Session) :
    List String → String → Nat → LoopOutcome × List String
  | [], fullText, _ => (.completed fullText, [])
  | chunk :: rest, fullText, chunkCount =>
    let cnt := chunkCount + 1
    if cnt % 10 = 0 ∧ (checkQuota session cnt).exceeded then
      (.quotaAborted fullText (checkQuota session cnt).message, [])
    else
      let fullText2 := mergeChunk fullText chunk
      let next := streamLoop session rest fullText2 cnt
      (next.1, fullText2 :: next.2)

/-- Result object returned by `createSession` / `sendPromptStreaming`;
fields that a given return site does not mention are absent (`none`). -/
structure SMResult where
  success : Bool
  response : Option String := none
  error : Option String := none
  userMessage : Option String := none
  quotaExceeded : Bool := false
  usage : Option Nat := none
  quota : Option Nat := none
  partialResponse : Option String := none
  code : Option String := none

/-- Entry of the worker-side `sessionStore` map: the session and the language
it was configured with. -/
structure StoredSession where
  session : Session
  userLanguage : String

/-- The worker-side `sessionStore` (`Map` keyed by tab id). -/
abbrev SessionStore : Type := List (Nat × StoredSession)

/-- `sessionStore.get(tabId)`. -/
def sessionStoreGet (store : SessionStore) (tabId : Nat) : Option StoredSession :=
  (store.find? (fun e => e.1 = tabId)).map (fun e => e.2)

/-- `sessionStore.set(tabId, v)` (insert-or-replace). -/
def sessionStoreSet (store : SessionStore) (tabId : Nat) (v : StoredSession) :
    SessionStore :=
  (tabId, v) :: store.filter (fun e => e.1 ≠ tabId)

/-- Environment for one `createSession` call: the outcomes of the provider
interactions it awaits.  `model` is the result of `createLanguageModel`
(which throws on failure); `blob`/`bitmap` the base64 and bitmap conversions;
`chunks` the chunk sequence the provider stream yields; `streamError` a
rejection of the stream after those chunks (a mid-stream rejection is the
same environment with a shorter `chunks`); `promptStreamingThrows` a
synchronous throw of `session.promptStreaming` caught by the outer catch. -/
structure CreateEnv where
  model : Except JsError (Option Session)
  blob : Except JsError Unit := .ok ()
  bitmap : Except JsError Unit := .ok ()
  promptStreamingThrows : Option JsError := none
  chunks : List String := []
  streamError : Option JsError := none

/-- The streaming tail of `createSession` (lines 253-321 of
`sessionManager.js`): run the stream loop, return the quota-abort or
stream-error failure with the partial text, or store the session and
succeed.  Returns the result, the updated `sessionStore` and the `onStream`
emissions. -/
def createSessionStream (store : SessionStore) (tabId : Nat)
    (userLanguage : String) (session : Session) (env : CreateEnv) :
    SMResult × SessionStore × List String :=
  match env.promptStreamingThrows with
  | some e =>
    ({ success := false, error := some (jsOr e.message ("Session creation failed")),
       userMessage := some (getErrorMessage e userLanguage), code := e.code },
     store, [])
  | none =>
    match streamLoop session env.chunks "" 0 with
    | (.quotaAborted partialText msg, emissions) =>
      ({ success := false, error := some ("Quota exceeded during streaming"),
         userMessage := msg, quotaExceeded := true, partialResponse := some partialText },
       store, emissions)
    | (.completed fullText, emissions) =>
      match env.streamError with
      | some e =>
        ({ success := false, error := some (jsOr e.message ("Streaming failed")),
           userMessage := some (getErrorMessage e userLanguage),
           partialResponse := some fullText }, store, emissions)
      | none =>
        ({ success := true, response := some fullText },
         sessionStoreSet store tabId ⟨session, userLanguage⟩, emissions)

/-- `createSession` from `sessionManager.js`: create the model, fail fast on
quota, convert the image, build the prompt for the session type (`screenshot`
or `image`; anything else is invalid), then stream the first generation and
store the session only on success. -/
def createSession (store : SessionStore) (tabId : Nat) (type : String)
    (userLanguage : String) (env : CreateEnv) :
    SMResult × SessionStore × List String :=
  match env.model with
  | .error e =>
    ({ success := false, error := some (jsOr e.message ("Session creation failed")),
       userMessage := some (getErrorMessage e userLanguage), code := e.code },
     store, [])
  | .ok none =>
    let errorMsg :=
      getErrorMessage { code := some ("LANGUAGE_MODEL_CREATION_FAILED") } userLanguage
    ({ success := false, error := some errorMsg, userMessage := some errorMsg },
     store, [])
  | .ok (some session) =>
    if (checkQuota session 0).exceeded then
      ({ success := false, error := some ("Quota exceeded"),
         userMessage := (checkQuota session 0).message, quotaExceeded := true,
         usage := (checkQuota session 0).usage, quota := (checkQuota session 0).quota },
       store, [])
    else
      match env.blob with
      | .error _ =>
        ({ success := false, error := some ("Image processing failed"),
           userMessage :=
             some (getErrorMessage { code := some ("IMAGE_PROCESSING_ERROR") }
               userLanguage) }, store, [])
      | .ok _ =>
        if type = "screenshot" then
          createSessionStream store tabId userLanguage session env
        else if type = "image" then
          match env.bitmap with
          | .error _ =>
            ({ success := false, error := some ("Image bitmap creation failed"),
               userMessage :=
                 some (getErrorMessage { code := some ("IMAGE_PROCESSING_ERROR") }
                   userLanguage) }, store, [])
          | .ok _ => createSessionStream store tabId userLanguage session env
        else ({ success := false, error := some ("Invalid session type") }, store, [])

/-- One part of a structured prompt message (`{type, value}`). -/
structure ContentPart where
  type : String
  value : String
deriving DecidableEq, Repr

/-- One message of a structured prompt (`{role, content}`). -/
structure PromptMsg where
  role : String
  content : List ContentPart
deriving DecidableEq, Repr

/-- A prompt as passed around the system: either a bare string or an array of
structured messages. -/
inductive PromptInput
  | str (s : String)
  | arr (msgs : List PromptMsg)
deriving DecidableEq, Repr

/-- The follow-up prompt unwrapping of `sendPromptStreaming` (lines 355-372):
when the prompt is a non-empty array whose first message's content is a
single text part (and has no image part), pass that part's bare string;
otherwise pass the prompt unchanged. -/
def extractPromptInput (prompt : PromptInput) : PromptInput :=
  match prompt with
  | .str s => .str s
  | .arr [] => .arr []
  | .arr (firstMessage :: rest) =>
    let content := firstMessage.content
    let hasImage := content.any (fun c => c.type = "image")
    if hasImage = false ∧ content.length = 1 ∧
        (content.head?.map (fun c => c.type)) = some ("text") then
      .str ((content.head?.map (fun c => c.value)).getD "")
    else .arr (firstMessage :: rest)

/-- Environment for one `sendPromptStreaming` call. `fallback` is the result
of the non-streaming `session.prompt()` call used when the stream yields zero
chunks (resolving possibly to a nullish value). -/
structure PromptEnv where
  promptStreamingThrows : Option JsError := none
  chunks : List String := []
  streamError : Option JsError := none
  fallback : Except JsError (Option String) := .ok none

/-- Observable outcome of one `sendPromptStreaming` call: the result object,
the `onStream` emissions, and the prompt value actually handed to the
provider's continuation entry point (`none` when the provider was never
called). -/
structure PromptTrace where
  result : SMResult
  emissions : List String
  promptPassed : Option PromptInput

/-- `sendPromptStreaming` from `sessionManager.js`: look up the session,
fail fast on quota, unwrap text-only follow-up prompts to a bare string,
stream (with the shared loop), and fall back to the non-streaming `prompt()`
call when the stream yielded zero chunks. -/
def sendPromptStreaming (store : SessionStore) (tabId : Nat)
    (prompt : PromptInput) (env : PromptEnv) : PromptTrace :=
  match sessionStoreGet store tabId with
  | none =>
    let errorMsg := getErrorMessage { code := some ("SESSION_NOT_FOUND") } "en"
    ⟨{ success := false, error := some ("Session not found"),
       userMessage := some errorMsg, code := some ("SESSION_NOT_FOUND") }, [], none⟩
  | some sessionData =>
    if (checkQuota sessionData.session 0).exceeded then
      ⟨{ success := false, error := some ("Quota exceeded"),
         userMessage := (checkQuota sessionData.session 0).message,
         quotaExceeded := true, usage := (checkQuota sessionData.session 0).usage,
         quota := (checkQuota sessionData.session 0).quota }, [], none⟩
    else
      match env.promptStreamingThrows with
      | some e =>
        ⟨{ success := false, error := some (jsOr e.message ("Prompt failed")),
           userMessage := some (getErrorMessage e sessionData.userLanguage),
           code := e.code },
         [], some (extractPromptInput prompt)⟩
      | none =>
        match streamLoop sessionData.session env.chunks "" 0 with
        | (.quotaAborted partialText msg, emissions) =>
          ⟨{ success := false, error := some ("Quota exceeded during streaming"),
             userMessage := msg, quotaExceeded := true,
             partialResponse := some partialText }, emissions,
           some (extractPromptInput prompt)⟩
        | (.completed fullText, emissions) =>
          match env.streamError with
          | some e =>
            ⟨{ success := false, error := some (jsOr e.message ("Streaming failed")),
               userMessage := some (getErrorMessage e sessionData.userLanguage),
               partialResponse := some fullText }, emissions,
             some (extractPromptInput prompt)⟩
          | none =>
            if env.chunks.length = 0 then
              match env.fallback with
              | .ok response =>
                ⟨{ success := true, response := some (jsOr response "") },
                 (if response.getD "" ≠ "" then [response.getD ""] else []),
                 some (extractPromptInput prompt)⟩
              | .error e =>
                ⟨{ success := false, error := some (jsOr e.message ("Prompt failed")),
                   userMessage := some (getErrorMessage e sessionData.userLanguage) },
                 [], some (extractPromptInput prompt)⟩
            else ⟨{ success := true, response := some fullText }, emissions,
                  some (extractPromptInput prompt)⟩

/-! ## Offscreen message handler (`src/offscreen.js`) -/

/-- A message on the worker→coordinator bus. -/
inductive BusMsg
  | streamUpdate (tabId : Nat) (partialText : String)
  | streamComplete (tabId : Nat) (fullText : String)
deriving DecidableEq, Repr

/-- The outbound bus traffic the offscreen `createSession` / `sendPrompt`
handlers produce for one generation (lines 30-126 and 133-219 of
`offscreen.js`): every `onStream` callback value is sent as a `streamUpdate`;
on success the final text is sent as `streamComplete`; on failure the
user-facing error message (`result.userMessage || result.error ||
i18n error_generic`) is sent as a `streamUpdate` and then as the
`streamComplete` text. -/
def offscreenOutbound (tabId : Nat) (result : SMResult)
    (emissions : List String) : List BusMsg :=
  let streamed := emissions.map (BusMsg.streamUpdate tabId)
  if result.success then
    streamed ++ [BusMsg.streamComplete tabId (result.response.getD "")]
  else
    let errorMessage :=
      jsOr result.userMessage (jsOr result.error (i18nGetMessage ("error_generic")))
    streamed ++ [BusMsg.streamUpdate tabId errorMessage,
                 BusMsg.streamComplete tabId errorMessage]

/-! ## Worker lifecycle manager (`ensureOffscreenDocument` in
`src/background/offscreenBridge.js`) -/

/-- Outcome of one liveness probe (`Promise.race` of a ping against a 2 s
timeout): the ping resolved with a `success` flag, or the race rejected
(timeout or transport error). -/
inductive PingOutcome
  | resolved (success : Bool)
  | failed
deriving DecidableEq, Repr

/-- `pingResult?.success` as a boolean. -/
def pingOk : PingOutcome → Bool
  | .resolved b => b
  | .failed => false

/-- Environment of one `ensureOffscreenDocument` call: whether an offscreen
context already exists, the outcome of the initial liveness probe (relevant
only when one exists), whether `chrome.offscreen.createDocument` succeeds,
and the outcomes of the up-to-five post-creation probes. -/
structure EnsureEnv where
  hasContext : Bool
  probe : PingOutcome := .failed
  createOk : Bool := true
  postProbes : List PingOutcome := []

/-- Observable effects of one `ensureOffscreenDocument` call: the returned
readiness flag, how many `createDocument` requests were issued, how many
`closeDocument` calls were made, and how many liveness probes were sent. -/
structure EnsureTrace where
  ready : Bool
  creations : Nat
  closes : Nat
  probes : Nat
deriving DecidableEq, Repr

/-- The post-creation verification loop of `ensureOffscreenDocument` (lines
289-307): up to 5 probes, stopping at the first successful one.  Returns the
readiness flag and the number of probes actually sent (a missing entry in
`postProbes` counts as a failed probe). -/
def postCreateLoop (postProbes : List PingOutcome) : Bool × Nat :=
  match (postProbes.take 5).findIdx? pingOk with
  | some i => (true, i + 1)
  | none => (false, 5)

/-- `ensureOffscreenDocument` from `offscreenBridge.js`: probe an existing
offscreen document and return ready if it answers; otherwise (closing it
first only when the probe raced to failure) create a new document and verify
it with up to five probes; any uncaught error yields `false`. -/
def ensureOffscreenDocument (env : EnsureEnv) : EnsureTrace :=
  if env.hasContext then
    match env.probe with
    | .resolved true => ⟨true, 0, 0, 1⟩
    | .resolved false => ensureCreatePath env 0 1
    | .failed => ensureCreatePath env 1 1
  else ensureCreatePath env 0 0
where
  /-- The creation tail (lines 278-313): issue the `createDocument` request,
  wait the settle delay, and run the verification loop; a creation failure or
  an unready document is caught by the outer catch and returns `false`. -/
  ensureCreatePath (env : EnsureEnv) (closes probes : Nat) : EnsureTrace :=
    if env.createOk then
      let lp := postCreateLoop env.postProbes
      ⟨lp.1, 1, closes, probes + lp.2⟩
    else ⟨false, 1, closes, probes⟩

/-- A host world for the lifecycle manager in which the worker is live: a
created document exists and answers every probe.  `hasDoc` says whether an
offscreen document currently exists. -/
def liveEnv (hasDoc : Bool) : EnsureEnv :=
  { hasContext := hasDoc
    probe := .resolved true
    createOk := true
    postProbes := [.resolved true, .resolved true, .resolved true,
                   .resolved true, .resolved true] }

/-- One `ensureOffscreenDocument` call against the live world: returns the
call's trace and whether a document exists afterwards. -/
def ensureLiveStep (hasDoc : Bool) : EnsureTrace × Bool :=
  let t := ensureOffscreenDocument (liveEnv hasDoc)
  (t, hasDoc || decide (t.creations > 0))

/-! ## Message delivery layer (`sendMessageToOffscreen` in
`src/background/offscreenBridge.js`) -/

/-- A message handed to `sendMessageToOffscreen` as far as the layer inspects
it: the `action` discriminator, the optional structured `prompt`, and the tab
id. -/
structure OffMessage where
  action : String
  prompt : Option (List PromptMsg) := none
  tabId : Nat := 0
deriving DecidableEq, Repr

/-- The `isStreamingAction` computation of `sendMessageToOffscreen` (lines
332-340 and 431-441): `createSession` is always streaming; `sendPrompt` is
streaming unless its first content part's value is truthy and contains
`"perceptaActions:"` (the synthetic title/actions turn). -/
def isStreamingAction (message : OffMessage) : Bool :=
  message.action == "createSession" ||
    (message.action == "sendPrompt" &&
      (match message.prompt with
       | none => true
       | some [] => true
       | some (firstMsg :: _) =>
         match firstMsg.content with
         | [] => true
         | part :: _ =>
           part.value == "" || !jsIncludes part.value ("perceptaActions:")))

/-- The transport-error test of the catch block in `sendMessageToOffscreen`
(lines 416-421): the receiving end not existing, the connection not being
established, any deadline expiring, or a did-not-start failure. -/
def isConnectionError (message : String) : Bool :=
  jsIncludes message ("Receiving end does not exist") ||
  jsIncludes message ("Could not establish connection") ||
  jsIncludes message ("Timeout") ||
  jsIncludes message ("did not start")

/-- An acknowledgement/response object from the offscreen document. -/
structure AckResponse where
  success : Bool := true
  started : Bool := false
deriving DecidableEq, Repr

/-- Environment of one `sendMessageToOffscreen` call: the outcome of the
whole first try block (either the response it returns or the error message it
throws — deadline races, missing acknowledgements and transport failures all
surface here as thrown messages), and the outcome of the retry delivery
(which may also resolve to a nullish response). -/
structure SendEnv where
  attempt1 : Except String AckResponse
  attempt2 : Except String (Option AckResponse) := .ok none

/-- Observable effects of one `sendMessageToOffscreen` call: the final result
(response or thrown error message), the number of deliveries of the original
request, the number of close-document/ensure-ready/settle recovery cycles
run, and the deadline used for the retry delivery (`none` when no retry
happened). -/
structure SendTrace where
  result : Except String AckResponse
  attempts : Nat
  recreateCycles : Nat
  retryTimeout : Option Nat
deriving Repr

/-- `sendMessageToOffscreen` from `offscreenBridge.js`: deliver the request
once; on a transport-class error, close the offscreen document (best-effort),
re-ensure it, wait 500 ms, and retry exactly once with the 5 s streaming or
30 s plain deadline; a retry failure throws `Failed after retry: <cause>`;
any other error propagates unchanged. -/
def sendMessageToOffscreen (message : OffMessage) (env : SendEnv) : SendTrace :=
  match env.attempt1 with
  | .ok response => ⟨.ok response, 1, 0, none⟩
  | .error errMsg =>
    if isConnectionError errMsg then
      let timeout := if isStreamingAction message then 5000 else 30000
      match env.attempt2 with
      | .ok (some retryResponse) => ⟨.ok retryResponse, 2, 1, some timeout⟩
      | .ok none =>
        ⟨.error ("Failed after retry: " ++
           "No response from offscreen document on retry"), 2, 1, some timeout⟩
      | .error retryMsg =>
        ⟨.error ("Failed after retry: " ++ retryMsg), 2, 1, some timeout⟩
    else ⟨.error errMsg, 1, 0, none⟩

/-! ## Coordinator streaming state and the generation entry point
(`src/background/messageHandlers.js` and the popup's `handleDescribePage`) -/

/-- One entry of the coordinator's `streamingState` map. -/
structure StreamState where
  isFollowup : Bool := false
  isActionButtons : Bool := false
  generatingTitle : Bool := false
  initialized : Bool := false
deriving DecidableEq, Repr

/-- The coordinator's `streamingState` map (tab id → state). -/
abbrev StreamingMap : Type := List (Nat × StreamState)

/-- The `isAnyTabStreaming` message handler in `messageHandlers.js`: iterate
the `streamingState` entries and report `true` on the first truthy state.
Every stored state is an object (hence truthy), so this is non-emptiness. -/
def isAnyTabStreaming (streamingState : StreamingMap) : Bool :=
  !streamingState.isEmpty

/-- Outcome of the popup's `handleDescribePage`: whether the analysis was
triggered, and the generation requests this user action causes to be sent
toward the worker (via `analyzePage` → `generateFromScreenshot` →
`sendMessageToOffscreen`). -/
structure DescribeOutcome where
  triggered : Bool
  workerMessages : List String
deriving DecidableEq, Repr

/-- `handleDescribePage` from the popup script: ask the coordinator whether
any tab is streaming and return immediately (sending nothing further) if so;
otherwise trigger the analysis, which sends one `createSession` request to
the worker. -/
def handleDescribePage (streamingState : StreamingMap) : DescribeOutcome :=
  if isAnyTabStreaming streamingState then ⟨false, []⟩
  else ⟨true, ["createSession"]⟩

/-! ## Helper lemmas and fixtures -/

/-- A session whose quota counters are never both numbers, so no quota check
ever reports exceeded. -/
def noQuotaSession : Session := ⟨fun _ => none⟩

/-- A session whose counters read `usage = limit = 5` exactly at chunk count
10 (the first periodic mid-stream check). -/
def quotaAt10Session : Session :=
  ⟨fun t => if t = 10 then some (5, 5) else none⟩

theorem streamLoop_no_quota (session : Session)
    (h : ∀ n, (checkQuota session n).exceeded = false) :
    ∀ (chunks : List String) (buf : String) (cnt : Nat),
      (streamLoop session chunks buf cnt).1 =
        .completed (chunks.foldl mergeChunk buf) := by
  intro chunks
  induction chunks with
  | nil => intro buf cnt; rfl
  | cons c rest ih =>
    intro buf cnt
    simp only [streamLoop, h, List.foldl_cons, Bool.false_eq_true, and_false,
      if_false]
    exact ih (mergeChunk buf c) (cnt + 1)

/-! ## C1: chunk merge -/

/-- C1.  For every chunk sequence consumed by the (shared) streaming loop of
`createSession` / `sendPromptStreaming`, each chunk is merged by replacing
the buffer when the chunk starts with the non-empty buffer (cumulative mode)
and appending otherwise (incremental mode); when no quota check fires, both
entry points return the fold of this merge over the chunks, and the two
concrete sequences `["Hello", "Hello world"]` and `["Hello", " world"]` both
merge to `"Hello world"`. -/
theorem C1_chunk_merge :
    (∀ (session : Session),
      (∀ n, (checkQuota session n).exceeded = false) →
      ∀ (chunks : List String) (buf : String) (cnt : Nat),
        (streamLoop session chunks buf cnt).1 =
          .completed (chunks.foldl mergeChunk buf)) ∧
    (∀ (store : SessionStore) (tabId : Nat) (lang : String) (session : Session)
        (chunks : List String),
      (∀ n, (checkQuota session n).exceeded = false) →
      (createSession store tabId "screenshot" lang
          { model := .ok (some session), chunks := chunks }).1.response =
        some (chunks.foldl mergeChunk "")) ∧
    (∀ (sd : StoredSession) (tabId : Nat) (prompt : PromptInput)
        (chunks : List String) (c : String),
      (∀ n, (checkQuota sd.session n).exceeded = false) →
      (sendPromptStreaming [(tabId, sd)] tabId prompt
          { chunks := c :: chunks }).result.response =
        some ((c :: chunks).foldl mergeChunk "")) ∧
    ["Hello", "Hello world"].foldl mergeChunk "" = "Hello world" ∧
    ["Hello", " world"].foldl mergeChunk "" = "Hello world" := by
  refine ⟨fun session h => streamLoop_no_quota session h, ?_, ?_, by decide, by decide⟩
  · intro store tabId lang session chunks h
    rcases hr : streamLoop session chunks "" 0 with ⟨out, ems⟩
    have hout : out = .completed (chunks.foldl mergeChunk "") := by
      have hl := streamLoop_no_quota session h chunks "" 0
      rw [hr] at hl
      exact hl
    subst hout
    simp [createSession, createSessionStream, h 0, hr]
  · intro sd tabId prompt chunks c h
    rcases hr : streamLoop sd.session (c :: chunks) "" 0 with ⟨out, ems⟩
    have hout : out = .completed ((c :: chunks).foldl mergeChunk "") := by
      have hl := streamLoop_no_quota sd.session h (c :: chunks) "" 0
      rw [hr] at hl
      exact hl
    subst hout
    simp [sendPromptStreaming, sessionStoreGet, h 0, hr]

/-- Witness for C1: the no-quota session discharges the hypothesis and the
loop computes the fold at a concrete input. -/
theorem C1_chunk_merge_witness :
    (∀ n, (checkQuota noQuotaSession n).exceeded = false) ∧
    (streamLoop noQuotaSession ["Hello", " world"] "" 0).1 =
      .completed (["Hello", " world"].foldl mergeChunk "") :=
  ⟨fun _ => rfl,
   C1_chunk_merge.1 noQuotaSession (fun _ => rfl) ["Hello", " world"] "" 0⟩

/-! ## C4: retry-once delivery -/

/-- C4.  When the first delivery attempt of `sendMessageToOffscreen` throws a
transport-class error, the layer runs exactly one close/ensure/settle
recovery cycle and retries exactly once with the deadline of the message's
mode (5 s streaming, 30 s plain); a successful retry is the overall result
with two deliveries in total, and a failed retry propagates a
`Failed after retry` error carrying the cause, with no third delivery. -/
theorem C4_retry_once (message : OffMessage) (env : SendEnv) (errMsg : String)
    (h1 : env.attempt1 = .error errMsg) (h2 : isConnectionError errMsg = true) :
    (∀ r, env.attempt2 = .ok (some r) →
      sendMessageToOffscreen message env =
        ⟨.ok r, 2, 1, some (if isStreamingAction message then 5000 else 30000)⟩) ∧
    (∀ retryMsg, env.attempt2 = .error retryMsg →
      sendMessageToOffscreen message env =
        ⟨.error ("Failed after retry: " ++ retryMsg), 2, 1,
         some (if isStreamingAction message then 5000 else 30000)⟩) := by
  constructor
  · intro r hr
    simp [sendMessageToOffscreen, h1, h2, hr]
  · intro retryMsg hr
    simp [sendMessageToOffscreen, h1, h2, hr]

/-- Witness for C4: a 30 s timeout on a `createSession` delivery followed by
a successful retry. -/
theorem C4_retry_once_witness :
    isConnectionError "Timeout after 30s" = true ∧
    sendMessageToOffscreen { action := "createSession" }
        { attempt1 := .error "Timeout after 30s",
          attempt2 := .ok (some { success := true, started := true }) } =
      ⟨.ok { success := true, started := true }, 2, 1, some 5000⟩ := by
  refine ⟨by decide, ?_⟩
  have h := (C4_retry_once { action := "createSession" }
      { attempt1 := .error "Timeout after 30s",
        attempt2 := .ok (some { success := true, started := true }) }
      "Timeout after 30s" rfl (by decide)).1
      { success := true, started := true } rfl
  simpa using h

/-! ## C5: phase exclusivity at the generation entry point -/

/-- C5.  If any conversation key has a recorded (hence non-idle) streaming
state, the generation entry point `handleDescribePage` reports streaming and
returns without triggering the analysis, so no generation request is sent
toward the worker. -/
theorem C5_phase_exclusivity (streamingState : StreamingMap) (k : Nat)
    (s : StreamState) (h : (k, s) ∈ streamingState) :
    isAnyTabStreaming streamingState = true ∧
    handleDescribePage streamingState = ⟨false, []⟩ := by
  have hne : streamingState ≠ [] := by
    intro hnil
    rw [hnil] at h
    exact (List.not_mem_nil _ h)
  have hempty : streamingState.isEmpty = false := by
    cases streamingState with
    | nil => exact absurd rfl hne
    | cons a l => rfl
  constructor
  · simp [isAnyTabStreaming, hempty]
  · simp [handleDescribePage, isAnyTabStreaming, hempty]

/-- Witness for C5: a single streaming tab blocks the entry point. -/
theorem C5_phase_exclusivity_witness :
    (7, ({} : StreamState)) ∈ ([(7, ({} : StreamState))] : StreamingMap) ∧
    handleDescribePage ([(7, ({} : StreamState))] : StreamingMap) = ⟨false, []⟩ :=
  ⟨List.mem_singleton.mpr rfl,
   (C5_phase_exclusivity [(7, {})] 7 {} (List.mem_singleton.mpr rfl)).2⟩

/-! ## C7: idempotent readiness -/

/-- C7.  When an offscreen document exists and answers the 2 s liveness
probe, `ensureOffscreenDocument` returns ready after that single probe,
issuing no creation (and no close) request; consequently, two consecutive
calls against a live worker world starting with no document issue exactly
one creation request in total, the second call only probing. -/
theorem C7_idempotent_readiness :
    (∀ env : EnsureEnv, env.hasContext = true → env.probe = .resolved true →
      ensureOffscreenDocument env = ⟨true, 0, 0, 1⟩) ∧
    ((ensureLiveStep false).1.ready = true ∧
     (ensureLiveStep (ensureLiveStep false).2).1.ready = true ∧
     (ensureLiveStep false).1.creations +
       (ensureLiveStep (ensureLiveStep false).2).1.creations = 1 ∧
     (ensureLiveStep (ensureLiveStep false).2).1 = ⟨true, 0, 0, 1⟩) := by
  constructor
  · intro env h1 h2
    simp [ensureOffscreenDocument, h1, h2]
  · refine ⟨by decide, by decide, by decide, by decide⟩

/-- Witness for C7: the live world with an existing document satisfies the
hypotheses of the probe-only case. -/
theorem C7_idempotent_readiness_witness :
    (liveEnv true).hasContext = true ∧ (liveEnv true).probe = .resolved true ∧
    ensureOffscreenDocument (liveEnv true) = ⟨true, 0, 0, 1⟩ :=
  ⟨rfl, rfl, C7_idempotent_readiness.1 (liveEnv true) rfl rfl⟩

/-! ## C8: session stored only on success -/

/-- C8.  `createSession` writes to the worker-side session store only when
its first generation succeeds (in which case it stores the session under the
tab key with the session language); on every failure path the store is
returned unchanged. -/
theorem C8_store_only_on_success (store : SessionStore) (tabId : Nat)
    (type userLanguage : String) (env : CreateEnv) :
    ((createSession store tabId type userLanguage env).1.success = true →
      ∃ session, env.model = .ok (some session) ∧
        (createSession store tabId type userLanguage env).2.1 =
          sessionStoreSet store tabId ⟨session, userLanguage⟩) ∧
    ((createSession store tabId type userLanguage env).1.success = false →
      (createSession store tabId type userLanguage env).2.1 = store) := by
  constructor
  · intro hs
    unfold createSession createSessionStream at hs ⊢
    revert hs
    repeat' split
    all_goals intro hs
    all_goals try (dsimp only at hs)
    all_goals first
      | ((exfalso ; simp at hs) ; done)
      | exact ⟨_, by assumption, rfl⟩
  · intro hs
    unfold createSession createSessionStream at hs ⊢
    revert hs
    repeat' split
    all_goals intro hs
    all_goals try (dsimp only at hs ⊢)
    all_goals first
      | rfl
      | (exfalso ; simp at hs)

/-- Witness for C8: a create with an invalid session type fails and leaves
the (empty) session store unchanged. -/
theorem C8_store_only_on_success_witness :
    (createSession [] 7 "bogus" "en"
        { model := .ok (some noQuotaSession), chunks := ["hi"] }).1.success = false ∧
    (createSession [] 7 "bogus" "en"
        { model := .ok (some noQuotaSession), chunks := ["hi"] }).2.1 = [] :=
  ⟨rfl,
   (C8_store_only_on_success [] 7 "bogus" "en"
      { model := .ok (some noQuotaSession), chunks := ["hi"] }).2 rfl⟩

/-! ## C9: text-only follow-up prompts are passed as bare strings -/

/-- C9.  `sendPromptStreaming` unwraps a prompt that is a non-empty array
whose first message's content is exactly one text part into the bare text
string; every other prompt shape is passed unchanged; and whenever the
session exists and the pre-check quota is fine, the value handed to the
provider's continuation entry point is exactly this unwrapping. -/
theorem C9_bare_text_followup :
    (∀ (firstMessage : PromptMsg) (rest : List PromptMsg) (part : ContentPart),
      firstMessage.content = [part] → part.type = "text" →
      extractPromptInput (.arr (firstMessage :: rest)) = .str part.value) ∧
    (∀ s, extractPromptInput (.str s) = .str s) ∧
    (extractPromptInput (.arr []) = .arr []) ∧
    (∀ (firstMessage : PromptMsg) (rest : List PromptMsg),
      (∀ part, firstMessage.content = [part] → part.type ≠ "text") →
      extractPromptInput (.arr (firstMessage :: rest)) = .arr (firstMessage :: rest)) ∧
    (∀ (firstMessage : PromptMsg) (rest : List PromptMsg),
      firstMessage.content.length ≠ 1 →
      extractPromptInput (.arr (firstMessage :: rest)) = .arr (firstMessage :: rest)) ∧
    (∀ (store : SessionStore) (tabId : Nat) (prompt : PromptInput)
        (env : PromptEnv) (sessionData : StoredSession),
      sessionStoreGet store tabId = some sessionData →
      (checkQuota sessionData.session 0).exceeded = false →
      (sendPromptStreaming store tabId prompt env).promptPassed =
        some (extractPromptInput prompt)) := by
  refine ⟨?_, fun s => rfl, rfl, ?_, ?_, ?_⟩
  · intro firstMessage rest part hc ht
    simp [extractPromptInput, hc, ht]
  · intro firstMessage rest hno
    cases hc : firstMessage.content with
    | nil => simp [extractPromptInput, hc]
    | cons p ps =>
      cases ps with
      | nil =>
        have := hno p hc
        simp [extractPromptInput, hc, this]
      | cons q qs => simp [extractPromptInput, hc]
  · intro firstMessage rest hlen
    cases hc : firstMessage.content with
    | nil => simp [extractPromptInput, hc]
    | cons p ps =>
      cases ps with
      | nil => exact absurd (by rw [hc]; rfl) hlen
      | cons q qs => simp [extractPromptInput, hc]
  · intro store tabId prompt env sessionData hget hq
    unfold sendPromptStreaming
    rw [hget]
    simp only [hq, Bool.false_eq_true, if_false]
    split
    · rfl
    · split
      · rfl
      · split
        · rfl
        · split
          · split
            · rfl
            · rfl
          · rfl

/-- Witness for C9: a single text part is unwrapped to its bare string. -/
theorem C9_bare_text_followup_witness :
    (⟨"user", [⟨"text", "What is this?"⟩]⟩ : PromptMsg).content =
      [⟨"text", "What is this?"⟩] ∧
    extractPromptInput (.arr [⟨"user", [⟨"text", "What is this?"⟩]⟩]) =
      .str "What is this?" :=
  ⟨rfl,
   C9_bare_text_followup.1 ⟨"user", [⟨"text", "What is this?"⟩]⟩ []
     ⟨"text", "What is this?"⟩ rfl rfl⟩

/-! ## C10: zero-chunk fallback to the non-streaming call -/

/-- C10.  When the session exists, the pre-check quota is fine, nothing
throws, and the stream yields zero chunks, `sendPromptStreaming` falls back
to the non-streaming `prompt()` call: a truthy fallback response is passed
once to the stream callback and returned as the successful response, a
falsy one yields a successful empty response with no callback invocation,
and a fallback failure yields an unsuccessful result. -/
theorem C10_zero_chunk_fallback (store : SessionStore) (tabId : Nat)
    (prompt : PromptInput) (env : PromptEnv) (sessionData : StoredSession)
    (hget : sessionStoreGet store tabId = some sessionData)
    (hq : (checkQuota sessionData.session 0).exceeded = false)
    (hthrow : env.promptStreamingThrows = none)
    (hchunks : env.chunks = [])
    (hse : env.streamError = none) :
    (∀ s, env.fallback = .ok (some s) → s ≠ "" →
      (sendPromptStreaming store tabId prompt env).result.success = true ∧
      (sendPromptStreaming store tabId prompt env).result.response = some s ∧
      (sendPromptStreaming store tabId prompt env).emissions = [s]) ∧
    (env.fallback = .ok none →
      (sendPromptStreaming store tabId prompt env).result.success = true ∧
      (sendPromptStreaming store tabId prompt env).result.response = some "" ∧
      (sendPromptStreaming store tabId prompt env).emissions = []) ∧
    (env.fallback = .ok (some "") →
      (sendPromptStreaming store tabId prompt env).result.success = true ∧
      (sendPromptStreaming store tabId prompt env).result.response = some "" ∧
      (sendPromptStreaming store tabId prompt env).emissions = []) ∧
    (∀ e, env.fallback = .error e →
      (sendPromptStreaming store tabId prompt env).result.success = false ∧
      (sendPromptStreaming store tabId prompt env).result.error =
        some (jsOr e.message ("Prompt failed")) ∧
      (sendPromptStreaming store tabId prompt env).result.userMessage =
        some (getErrorMessage e sessionData.userLanguage) ∧
      (sendPromptStreaming store tabId prompt env).emissions = []) := by
  have hrun : ∀ P : PromptTrace → Prop,
      (match env.fallback with
        | .ok response =>
          P ⟨{ success := true, response := some (jsOr response "") },
             (if response.getD "" ≠ "" then [response.getD ""] else []),
             some (extractPromptInput prompt)⟩
        | .error e =>
          P ⟨{ success := false, error := some (jsOr e.message ("Prompt failed")),
               userMessage := some (getErrorMessage e sessionData.userLanguage) },
             [], some (extractPromptInput prompt)⟩) →
      P (sendPromptStreaming store tabId prompt env) := by
    intro P hP
    unfold sendPromptStreaming
    rw [hget]
    simp only [hq, Bool.false_eq_true, if_false, hthrow, hchunks, streamLoop, hse,
      List.length_nil, if_true]
    cases hfb : env.fallback with
    | ok r => rw [hfb] at hP; exact hP
    | error e => rw [hfb] at hP; exact hP
  refine ⟨?_, ?_, ?_, ?_⟩
  · intro s hfb hs
    refine hrun (fun t => t.result.success = true ∧ t.result.response = some s ∧
      t.emissions = [s]) ?_
    rw [hfb]
    simp [jsOr, hs]
  · intro hfb
    refine hrun (fun t => t.result.success = true ∧ t.result.response = some "" ∧
      t.emissions = []) ?_
    rw [hfb]
    simp [jsOr]
  · intro hfb
    refine hrun (fun t => t.result.success = true ∧ t.result.response = some "" ∧
      t.emissions = []) ?_
    rw [hfb]
    simp [jsOr]
  · intro e hfb
    refine hrun (fun t => t.result.success = false ∧
      t.result.error = some (jsOr e.message ("Prompt failed")) ∧
      t.result.userMessage = some (getErrorMessage e sessionData.userLanguage) ∧
      t.emissions = []) ?_
    rw [hfb]
    simp

/-- Witness for C10: an empty stream with a truthy fallback response. -/
theorem C10_zero_chunk_fallback_witness :
    sessionStoreGet [(3, ⟨noQuotaSession, "en"⟩)] 3 = some ⟨noQuotaSession, "en"⟩ ∧
    (sendPromptStreaming [(3, ⟨noQuotaSession, "en"⟩)] 3 (.str "hi")
        { fallback := .ok (some "resp") }).result.response = some "resp" :=
  ⟨rfl,
   ((C10_zero_chunk_fallback [(3, ⟨noQuotaSession, "en"⟩)] 3 (.str "hi")
      { fallback := .ok (some "resp") } ⟨noQuotaSession, "en"⟩ rfl rfl rfl rfl
      rfl).1 "resp" rfl (by decide)).2.1⟩

/-! ## C3: mid-stream quota abort -/

/-- C3 (amended).  When the periodic quota check at the 10th chunk reports
`usage ≥ limit`, `createSession` returns an unsuccessful quota-exceeded
result whose `partialResponse` is the text accumulated from the first nine
chunks; the partial text reaches the UI only through the per-chunk stream
updates already emitted before the abort, while the final user-visible
response forwarded for the generation (last `streamUpdate` and the
`streamComplete`) is the localized quota error message, not the partial
text. -/
theorem C3_quota_partial_preserved (store : SessionStore) (tabId : Nat)
    (lang : String) (env : CreateEnv) (session : Session)
    (c1 c2 c3 c4 c5 c6 c7 c8 c9 c10 : String) (rest : List String)
    (u q : Nat)
    (hmodel : env.model = .ok (some session))
    (hblob : env.blob = .ok ())
    (hthrow : env.promptStreamingThrows = none)
    (hchunks : env.chunks = c1 :: c2 :: c3 :: c4 :: c5 :: c6 :: c7 :: c8 :: c9 ::
      c10 :: rest)
    (hq0 : (checkQuota session 0).exceeded = false)
    (husage : session.usageAt 10 = some (u, q))
    (hu : u ≥ q) :
    (createSession store tabId "screenshot" lang env).1.success = false ∧
    (createSession store tabId "screenshot" lang env).1.quotaExceeded = true ∧
    (createSession store tabId "screenshot" lang env).1.partialResponse =
      some ([c1, c2, c3, c4, c5, c6, c7, c8, c9].foldl mergeChunk "") ∧
    (createSession store tabId "screenshot" lang env).1.userMessage =
      some (i18nGetMessage ("error_quota_exceeded")) ∧
    (createSession store tabId "screenshot" lang env).2.2 =
      [[c1].foldl mergeChunk "", [c1, c2].foldl mergeChunk "",
       [c1, c2, c3].foldl mergeChunk "", [c1, c2, c3, c4].foldl mergeChunk "",
       [c1, c2, c3, c4, c5].foldl mergeChunk "",
       [c1, c2, c3, c4, c5, c6].foldl mergeChunk "",
       [c1, c2, c3, c4, c5, c6, c7].foldl mergeChunk "",
       [c1, c2, c3, c4, c5, c6, c7, c8].foldl mergeChunk "",
       [c1, c2, c3, c4, c5, c6, c7, c8, c9].foldl mergeChunk ""] ∧
    offscreenOutbound tabId (createSession store tabId "screenshot" lang env).1
        (createSession store tabId "screenshot" lang env).2.2 =
      ((createSession store tabId "screenshot" lang env).2.2.map
          (BusMsg.streamUpdate tabId)) ++
        [BusMsg.streamUpdate tabId (i18nGetMessage ("error_quota_exceeded")),
         BusMsg.streamComplete tabId (i18nGetMessage ("error_quota_exceeded"))] := by
  have hchk : checkQuota session 10 =
      { exceeded := true, usage := some u, quota := some q,
        message := some (i18nGetMessage ("error_quota_exceeded")) } := by
    simp [checkQuota, husage, hu]
  have hstream : streamLoop session env.chunks "" 0 =
      (.quotaAborted ([c1, c2, c3, c4, c5, c6, c7, c8, c9].foldl mergeChunk "")
        (some (i18nGetMessage ("error_quota_exceeded"))),
       [[c1].foldl mergeChunk "", [c1, c2].foldl mergeChunk "",
        [c1, c2, c3].foldl mergeChunk "", [c1, c2, c3, c4].foldl mergeChunk "",
        [c1, c2, c3, c4, c5].foldl mergeChunk "",
        [c1, c2, c3, c4, c5, c6].foldl mergeChunk "",
        [c1, c2, c3, c4, c5, c6, c7].foldl mergeChunk "",
        [c1, c2, c3, c4, c5, c6, c7, c8].foldl mergeChunk "",
        [c1, c2, c3, c4, c5, c6, c7, c8, c9].foldl mergeChunk ""]) := by
    rw [hchunks]
    simp [streamLoop, hchk]
  have hcreate : createSession store tabId "screenshot" lang env =
      ({ success := false, error := some ("Quota exceeded during streaming"),
         userMessage := some (i18nGetMessage ("error_quota_exceeded")),
         quotaExceeded := true,
         partialResponse :=
           some ([c1, c2, c3, c4, c5, c6, c7, c8, c9].foldl mergeChunk "") },
       store,
       [[c1].foldl mergeChunk "", [c1, c2].foldl mergeChunk "",
        [c1, c2, c3].foldl mergeChunk "", [c1, c2, c3, c4].foldl mergeChunk "",
        [c1, c2, c3, c4, c5].foldl mergeChunk "",
        [c1, c2, c3, c4, c5, c6].foldl mergeChunk "",
        [c1, c2, c3, c4, c5, c6, c7].foldl mergeChunk "",
        [c1, c2, c3, c4, c5, c6, c7, c8].foldl mergeChunk "",
        [c1, c2, c3, c4, c5, c6, c7, c8, c9].foldl mergeChunk ""]) := by
    unfold createSession createSessionStream
    simp only [hmodel, hblob, hthrow, hq0, Bool.false_eq_true, if_false]
    rw [hstream]
    simp
  refine ⟨?_, ?_, ?_, ?_, ?_, ?_⟩ <;>
    simp [hcreate, offscreenOutbound, jsOr, i18nGetMessage]

/-- Witness for C3: ten distinct chunks against the session whose counters
read exceeded exactly at chunk count 10. -/
theorem C3_quota_partial_preserved_witness :
    (checkQuota quotaAt10Session 0).exceeded = false ∧
    quotaAt10Session.usageAt 10 = some (5, 5) ∧
    (createSession [] 7 "screenshot" "en"
        { model := .ok (some quotaAt10Session),
          chunks := ["c1", "c2", "c3", "c4", "c5", "c6", "c7", "c8", "c9", "c10"]
        }).1.partialResponse =
      some (["c1", "c2", "c3", "c4", "c5", "c6", "c7", "c8",
        "c9"].foldl mergeChunk "") :=
  ⟨rfl, rfl,
   (C3_quota_partial_preserved [] 7 "en"
      { model := .ok (some quotaAt10Session),
        chunks := ["c1", "c2", "c3", "c4", "c5", "c6", "c7", "c8", "c9", "c10"] }
      quotaAt10Session "c1" "c2" "c3" "c4" "c5" "c6" "c7" "c8" "c9" "c10" [] 5 5
      rfl rfl rfl rfl rfl rfl (by decide)).2.2.1⟩

/-- Counterexample for C3 as stated: at a concrete quota-aborted generation
the result's `partialResponse` is the accumulated text, but the user-visible
response forwarded to the UI for the generation (the `streamComplete` text)
is the localized quota error message, which differs from the partial text —
the partial text is not forwarded as the user-visible response. -/
theorem C3_counterexample :
    (createSession [] 7 "screenshot" "en"
        { model := .ok (some quotaAt10Session),
          chunks := ["c1", "c2", "c3", "c4", "c5", "c6", "c7", "c8", "c9", "c10"]
        }).1.partialResponse = some "c1c2c3c4c5c6c7c8c9" ∧
    (offscreenOutbound 7
        (createSession [] 7 "screenshot" "en"
          { model := .ok (some quotaAt10Session),
            chunks := ["c1", "c2", "c3", "c4", "c5", "c6", "c7", "c8", "c9",
              "c10"] }).1
        (createSession [] 7 "screenshot" "en"
          { model := .ok (some quotaAt10Session),
            chunks := ["c1", "c2", "c3", "c4", "c5", "c6", "c7", "c8", "c9",
              "c10"] }).2.2).getLast? =
      some (BusMsg.streamComplete 7 (i18nGetMessage ("error_quota_exceeded"))) ∧
    i18nGetMessage ("error_quota_exceeded") ≠ "c1c2c3c4c5c6c7c8c9" := by
  refine ⟨by decide, by decide, by decide⟩

/-! ## Size lemmas for the context chunker -/

theorem utf8Len_eq_zero {l : List Char} (h : utf8Len l = 0) : l = [] := by
  cases l with
  | nil => rfl
  | cons c cs =>
    exfalso
    have hc := Char.utf8Size_pos c
    simp [utf8Len] at h
    omega

theorem getTextSizeInBytes_eq_zero {s : String} (h : getTextSizeInBytes s = 0) :
    s = "" := by
  rw [getTextSizeInBytes_eq] at h
  cases s with
  | mk l =>
    have : l = [] := utf8Len_eq_zero h
    rw [this]

theorem jsTrim_size_le (s : String) :
    getTextSizeInBytes (jsTrim s) ≤ getTextSizeInBytes s := by
  rw [getTextSizeInBytes_eq, getTextSizeInBytes_eq]
  show utf8Len (((s.data.dropWhile Char.isWhitespace).reverse.dropWhile
      Char.isWhitespace).reverse) ≤ utf8Len s.data
  calc utf8Len (((s.data.dropWhile Char.isWhitespace).reverse.dropWhile
          Char.isWhitespace).reverse)
      = utf8Len ((s.data.dropWhile Char.isWhitespace).reverse.dropWhile
          Char.isWhitespace) := utf8Len_reverse _
    _ ≤ utf8Len ((s.data.dropWhile Char.isWhitespace).reverse) :=
        utf8Len_dropWhile_le _ _
    _ = utf8Len (s.data.dropWhile Char.isWhitespace) := utf8Len_reverse _
    _ ≤ utf8Len s.data := utf8Len_dropWhile_le _ _

theorem truncLoop_size_le (text : String) (maxBytes : Int) (low : Nat)
    (high : Int) (result : String)
    (h : (getTextSizeInBytes result : Int) ≤ max maxBytes 0) :
    (getTextSizeInBytes (truncLoop text maxBytes low high result) : Int) ≤
      max maxBytes 0 := by
  induction low, high, result using truncLoop.induct text maxBytes with
  | case1 low high result hle mid sub hfit ih =>
    rw [truncLoop, dif_pos hle, if_pos hfit]
    exact ih (by
      refine le_trans hfit ?_
      exact le_max_left maxBytes 0)
  | case2 low high result hle mid sub hfit ih =>
    rw [truncLoop, dif_pos hle, if_neg hfit]
    exact ih h
  | case3 low high result hle =>
    rw [truncLoop, dif_neg hle]
    exact h

theorem truncateText_size_le (text : String) (maxBytes : Int) :
    (getTextSizeInBytes (truncateText text maxBytes) : Int) ≤ max maxBytes 0 := by
  have hempty : getTextSizeInBytes "" = 0 := rfl
  unfold truncateText
  split
  · rw [hempty]
    simp
  · split
    · rename_i hfit
      omega
    · have hloop := truncLoop_size_le text maxBytes 0 (text.data.length : Int) ""
        (by rw [hempty]; simp)
      set result := truncLoop text maxBytes 0 (text.data.length : Int) "" with hres
      have hcut : getTextSizeInBytes (wordBoundaryCut result) ≤
          getTextSizeInBytes result := by
        unfold wordBoundaryCut
        rw [getTextSizeInBytes_eq, getTextSizeInBytes_eq]
        split
        · exact utf8Len_take_le result.data _
        · exact Nat.le_refl _
      calc (getTextSizeInBytes (jsTrim (wordBoundaryCut result)) : Int)
          ≤ getTextSizeInBytes (wordBoundaryCut result) := by
            exact_mod_cast jsTrim_size_le _
        _ ≤ (getTextSizeInBytes result : Int) := by exact_mod_cast hcut
        _ ≤ max maxBytes 0 := hloop

theorem truncateText_pos_bound (text : String) (m : Int)
    (hne : truncateText text m ≠ "") :
    1 ≤ getTextSizeInBytes (truncateText text m) ∧
    (getTextSizeInBytes (truncateText text m) : Int) ≤ m := by
  have hb := truncateText_size_le text m
  have hpos : 1 ≤ getTextSizeInBytes (truncateText text m) := by
    rcases Nat.eq_zero_or_pos (getTextSizeInBytes (truncateText text m)) with h0 | h1
    · exact absurd (getTextSizeInBytes_eq_zero h0) hne
    · exact h1
  refine ⟨hpos, ?_⟩
  rcases le_max_iff.mp hb with h | h
  · exact h
  · exfalso
    omega

/-- The per-item cost `size(item + "\n")` that `truncateArray` accumulates. -/
def nlSize (item : String) : Nat := getTextSizeInBytes (item ++ "\n")

theorem nlSize_pos (item : String) : 1 ≤ nlSize item := by
  unfold nlSize
  rw [getTextSizeInBytes_append]
  have : getTextSizeInBytes "\n" = 1 := by decide
  omega

theorem truncateArray_go_size (maxBytes : Int) (items : List String) :
    ∀ currentSize : Nat,
      (currentSize : Int) +
          ((truncateArray.go maxBytes items currentSize).map nlSize).sum ≤
        max maxBytes currentSize := by
  induction items with
  | nil =>
    intro currentSize
    simp [truncateArray.go]
  | cons item rest ih =>
    intro currentSize
    rw [truncateArray.go]
    split
    · simp
    · rename_i hfit
      have := ih (currentSize + getTextSizeInBytes (item ++ "\n"))
      simp only [List.map_cons, List.sum_cons, nlSize]
      push_cast at this ⊢
      omega

theorem truncateArray_size (items : List String) (maxBytes : Int) :
    (((truncateArray items maxBytes).map nlSize).sum : Int) ≤ max maxBytes 0 := by
  have := truncateArray_go_size maxBytes items 0
  simpa [truncateArray] using this

theorem truncateArray_sum_pos (items : List String) (maxBytes : Int)
    (h : (truncateArray items maxBytes).length > 0) :
    1 ≤ ((truncateArray items maxBytes).map nlSize).sum := by
  cases harr : truncateArray items maxBytes with
  | nil => rw [harr] at h; simp at h
  | cons t ts =>
    simp only [List.map_cons, List.sum_cons]
    have := nlSize_pos t
    omega

theorem jsJoin_foldl_size (rest : List String) :
    ∀ acc : String,
      getTextSizeInBytes (rest.foldl (fun a y => a ++ "\n" ++ y) acc) =
        getTextSizeInBytes acc + ((rest.map nlSize).sum) := by
  induction rest with
  | nil => intro acc; simp
  | cons y ys ih =>
    intro acc
    simp only [List.foldl_cons, List.map_cons, List.sum_cons]
    rw [ih (acc ++ "\n" ++ y)]
    rw [getTextSizeInBytes_append, getTextSizeInBytes_append]
    have h1 : getTextSizeInBytes "\n" = 1 := by decide
    have h2 : nlSize y = getTextSizeInBytes y + 1 := by
      unfold nlSize
      rw [getTextSizeInBytes_append, h1]
    omega

theorem jsJoin_nl_size_le (l : List String) :
    getTextSizeInBytes (jsJoin l "\n") ≤ (l.map nlSize).sum := by
  cases l with
  | nil => simp [jsJoin, getTextSizeInBytes, utf8LenTR]
  | cons x rest =>
    unfold jsJoin
    rw [jsJoin_foldl_size rest x]
    simp only [List.map_cons, List.sum_cons]
    have : nlSize x = getTextSizeInBytes x + 1 := by
      unfold nlSize
      rw [getTextSizeInBytes_append]
      have : getTextSizeInBytes "\n" = 1 := by decide
      omega
    omega

/-- The running invariant of `chunkContext`: `remainingBytes` always equals
the budget minus the accumulated context and the reserved footer. -/
def chunkInv (st : ChunkSt) : Prop :=
  st.remainingBytes = (MAX_CONTEXT_SIZE : Int) - getTextSizeInBytes st.context -
    getTextSizeInBytes FOOTER_MESSAGE

theorem addListSection_inv (header : String) (items : List String) (st : ChunkSt)
    (h : chunkInv st) : chunkInv (addListSection header items st) := by
  unfold addListSection
  split
  · split
    · unfold chunkInv at h ⊢
      simp only [getTextSizeInBytes_append]
      push_cast
      omega
    · split
      · rfl
      · exact h
  · exact h

theorem addListSection_bound (header : String) (items : List String)
    (st : ChunkSt) (h : chunkInv st)
    (hhead : getTextSizeInBytes header + 2 ≤ 50)
    (hb : getTextSizeInBytes st.context + getTextSizeInBytes FOOTER_MESSAGE ≤
      MAX_CONTEXT_SIZE) :
    getTextSizeInBytes (addListSection header items st).context +
      getTextSizeInBytes FOOTER_MESSAGE ≤ MAX_CONTEXT_SIZE := by
  unfold addListSection
  split
  · split
    · rename_i hcond hfit
      simp only [getTextSizeInBytes_append] at hfit ⊢
      unfold chunkInv at h
      omega
    · split
      · rename_i hcond hfit hne
        simp only []
        have hsum := truncateArray_size items (st.remainingBytes - 50)
        have hpos := truncateArray_sum_pos items (st.remainingBytes - 50) hne
        have hjoin := jsJoin_nl_size_le (truncateArray items (st.remainingBytes - 50))
        have h2 : getTextSizeInBytes "\n\n" = 2 := by decide
        rw [getTextSizeInBytes_append, getTextSizeInBytes_append,
          getTextSizeInBytes_append, h2]
        unfold chunkInv at h
        omega
      · exact hb
  · exact hb

theorem addSnippetSection_bound (snippet : String) (st : ChunkSt)
    (h : chunkInv st)
    (hb : getTextSizeInBytes st.context + getTextSizeInBytes FOOTER_MESSAGE ≤
      MAX_CONTEXT_SIZE) :
    getTextSizeInBytes (addSnippetSection snippet st) +
      getTextSizeInBytes FOOTER_MESSAGE ≤ MAX_CONTEXT_SIZE := by
  unfold addSnippetSection
  split
  · split
    · rename_i hcond hfit
      rw [getTextSizeInBytes_append]
      unfold chunkInv at h
      omega
    · split
      · rename_i hcond hfit hne
        have htr := truncateText_pos_bound snippet (st.remainingBytes - 100) hne
        have h1 : getTextSizeInBytes "PAGE TEXT (SNAPSHOT):\n" = 22 := by decide
        have h2 : getTextSizeInBytes "...\n\n" = 5 := by decide
        rw [getTextSizeInBytes_append, getTextSizeInBytes_append,
          getTextSizeInBytes_append, h1, h2]
        unfold chunkInv at h
        omega
      · exact hb
  · exact hb

/-! ## C2: context budget -/

/-- C2 (amended).  Provided the mandatory header (`URL:` line plus optional
`TITLE:` line) together with the reserved footer fits in the 10 KiB budget,
the serialized output of `chunkContext` is at most the budget plus 2 bytes
(the full-article path appends a two-byte blank-line separator that the
budget arithmetic does not account for; every other path stays within the
budget itself). -/
theorem C2_context_budget (cd : ContextData)
    (hHeader : getTextSizeInBytes (chunkHeader cd) +
      getTextSizeInBytes FOOTER_MESSAGE ≤ MAX_CONTEXT_SIZE) :
    getTextSizeInBytes (chunkContext cd) ≤ MAX_CONTEXT_SIZE + 2 := by
  unfold chunkContext
  split
  · rename_i hcond
    obtain ⟨hart, hsome, hne, hrem⟩ := hcond
    have hE : remainingAfterHeader cd = (MAX_CONTEXT_SIZE : Int) -
        getTextSizeInBytes (chunkHeader cd) -
        getTextSizeInBytes FOOTER_MESSAGE := rfl
    rw [getTextSizeInBytes_append, getTextSizeInBytes_append]
    unfold articlePart
    split
    · rename_i hfit
      rw [getTextSizeInBytes_append]
      have h2 : getTextSizeInBytes "\n\n" = 2 := by decide
      omega
    · split
      · rename_i hfit hne2
        have htr := truncateText_pos_bound (cd.articleContent.getD "")
          (remainingAfterHeader cd - 100) hne2
        rw [getTextSizeInBytes_append]
        have h5 : getTextSizeInBytes "...\n\n" = 5 := by decide
        omega
      · have h0 : getTextSizeInBytes "" = 0 := by decide
        omega
  · simp only [addMetaSection, addHeadingsSection, addLinksSection]
    rw [getTextSizeInBytes_append]
    have inv0 : chunkInv ⟨chunkHeader cd, remainingAfterHeader cd⟩ := rfl
    have inv1 := addListSection_inv "META TAGS:\n" cd.meta _ inv0
    have b1 := addListSection_bound "META TAGS:\n" cd.meta _ inv0
      (by decide) hHeader
    have inv2 := addListSection_inv "HEADINGS:\n"
      (cd.headings.map (fun h => "- " ++ h)) _ inv1
    have b2 := addListSection_bound "HEADINGS:\n"
      (cd.headings.map (fun h => "- " ++ h)) _ inv1 (by decide) b1
    have inv3 := addListSection_inv "LINKS:\n" cd.links _ inv2
    have b3 := addListSection_bound "LINKS:\n" cd.links _ inv2 (by decide) b2
    have b4 := addSnippetSection_bound cd.snippet _ inv3 b3
    omega

/-- Fixture: a context whose URL alone is far larger than the budget
(2600 four-byte characters, 10400 bytes). -/
def cdBigUrl : ContextData := { url := String.mk (List.replicate 2600 '𝄞') }

/-- Counterexample for C2 as stated: the mandatory `URL:` line is emitted
regardless of the budget, so a 10400-byte URL makes the output of
`chunkContext` exceed the 10 KiB budget. -/
theorem C2_counterexample :
    MAX_CONTEXT_SIZE < getTextSizeInBytes (chunkContext cdBigUrl) := by
  have hurl : getTextSizeInBytes (String.mk (List.replicate 2600 '𝄞')) = 10400 := by
    rw [getTextSizeInBytes_eq]
    show utf8Len (List.replicate 2600 '𝄞') = 10400
    rw [utf8Len_replicate]
    decide
  have hcc : chunkContext cdBigUrl = chunkHeader cdBigUrl ++ FOOTER_MESSAGE := rfl
  have hheader : chunkHeader cdBigUrl =
      "URL: " ++ String.mk (List.replicate 2600 '𝄞') ++ "\n\n" := rfl
  rw [hcc, hheader, getTextSizeInBytes_append, getTextSizeInBytes_append,
    getTextSizeInBytes_append, hurl]
  have h1 : getTextSizeInBytes "URL: " = 5 := by decide
  have h2 : getTextSizeInBytes "\n\n" = 2 := by decide
  have h3 : getTextSizeInBytes FOOTER_MESSAGE = 68 := by decide
  rw [h1, h2, h3]
  decide

/-- Witness for C2: the empty signal set satisfies the header hypothesis and
the bound. -/
theorem C2_context_budget_witness :
    getTextSizeInBytes (chunkHeader ({} : ContextData)) +
      getTextSizeInBytes FOOTER_MESSAGE ≤ MAX_CONTEXT_SIZE ∧
    getTextSizeInBytes (chunkContext ({} : ContextData)) ≤ MAX_CONTEXT_SIZE + 2 :=
  ⟨by decide, C2_context_budget ({} : ContextData) (by decide)⟩

/-! ## C6: oversized article truncation -/

/-- C6.  For an article page with a truthy extracted article whose byte size
alone exceeds the positive remaining budget, `chunkContext` returns exactly
the header, a truncated article part (the binary-search truncation against a
100-byte reserve, followed by an ellipsis when non-empty) and the footer:
the truncation fits the reserved slack, the whole output ends strictly below
the budget, and the output is identical to the one computed with the meta,
headings, links and snippet signals erased — those sections are omitted
entirely. -/
theorem C6_article_truncation (cd : ContextData) (a : String)
    (hart : cd.isArticle = true)
    (hsome : cd.articleContent = some a)
    (hrem : 0 < remainingAfterHeader cd)
    (hbig : remainingAfterHeader cd < (getTextSizeInBytes a : Int)) :
    chunkContext cd =
      chunkHeader cd ++ articlePart a (remainingAfterHeader cd) ++
        FOOTER_MESSAGE ∧
    articlePart a (remainingAfterHeader cd) =
      (if truncateText a (remainingAfterHeader cd - 100) ≠ "" then
        truncateText a (remainingAfterHeader cd - 100) ++ "...\n\n"
      else "") ∧
    (getTextSizeInBytes (truncateText a (remainingAfterHeader cd - 100)) : Int) ≤
      max (remainingAfterHeader cd - 100) 0 ∧
    getTextSizeInBytes (chunkContext cd) < MAX_CONTEXT_SIZE ∧
    chunkContext cd =
      chunkContext
        { cd with meta := [], headings := [], links := [], snippet := "" } := by
  have hane : a ≠ "" := by
    intro h0
    rw [h0] at hbig
    have : getTextSizeInBytes "" = 0 := by decide
    rw [this] at hbig
    omega
  have hc : cd.isArticle = true ∧ cd.articleContent.isSome = true ∧
      cd.articleContent ≠ some "" ∧ remainingAfterHeader cd > 0 := by
    refine ⟨hart, by rw [hsome]; rfl, by rw [hsome]; simpa using hane, hrem⟩
  have hgetD : cd.articleContent.getD "" = a := by rw [hsome]; rfl
  have hmain : chunkContext cd =
      chunkHeader cd ++ articlePart a (remainingAfterHeader cd) ++
        FOOTER_MESSAGE := by
    unfold chunkContext
    rw [if_pos hc, hgetD]
  have hpart : articlePart a (remainingAfterHeader cd) =
      (if truncateText a (remainingAfterHeader cd - 100) ≠ "" then
        truncateText a (remainingAfterHeader cd - 100) ++ "...\n\n"
      else "") := by
    unfold articlePart
    rw [if_neg (by omega)]
  have htr := truncateText_size_le a (remainingAfterHeader cd - 100)
  have hE : remainingAfterHeader cd = (MAX_CONTEXT_SIZE : Int) -
      getTextSizeInBytes (chunkHeader cd) -
      getTextSizeInBytes FOOTER_MESSAGE := rfl
  have hsize : getTextSizeInBytes (chunkContext cd) < MAX_CONTEXT_SIZE := by
    rw [hmain, getTextSizeInBytes_append, getTextSizeInBytes_append, hpart]
    by_cases ht : truncateText a (remainingAfterHeader cd - 100) = ""
    · rw [if_neg (by simpa using ht)]
      have h0 : getTextSizeInBytes "" = 0 := by decide
      omega
    · rw [if_pos ht, getTextSizeInBytes_append]
      have hb := truncateText_pos_bound a (remainingAfterHeader cd - 100) ht
      have h5 : getTextSizeInBytes "...\n\n" = 5 := by decide
      omega
  have hmain2 : chunkContext
      { cd with meta := [], headings := [], links := [], snippet := "" } =
      chunkHeader cd ++ articlePart a (remainingAfterHeader cd) ++
        FOOTER_MESSAGE := by
    unfold chunkContext
    split
    · show chunkHeader cd ++
        articlePart (cd.articleContent.getD "") (remainingAfterHeader cd) ++
        FOOTER_MESSAGE = _
      rw [hgetD]
    · rename_i hnc
      exact absurd hc hnc
  exact ⟨hmain, hpart, htr, hsize, by rw [hmain, hmain2]⟩

/-- Fixtures: an article of 2600 four-byte characters (10400 bytes), larger
than any possible remaining budget. -/
def bigArticle : String := String.mk (List.replicate 2600 '𝄞')

/-- Fixture: an article page carrying `bigArticle` and non-empty meta,
headings and links signals that the article path must skip. -/
def cdBigArticle : ContextData :=
  { url := "u", isArticle := true, articleContent := some bigArticle,
    meta := ["m: v"], headings := ["H"], links := ["1. l"] }

theorem bigArticle_size : getTextSizeInBytes bigArticle = 10400 := by
  rw [getTextSizeInBytes_eq]
  show utf8Len (List.replicate 2600 '𝄞') = 10400
  rw [utf8Len_replicate]
  decide

theorem cdBigArticle_remaining : remainingAfterHeader cdBigArticle = 10164 := by
  have hheader : chunkHeader cdBigArticle = "URL: u" ++ "\n\n" := rfl
  unfold remainingAfterHeader
  rw [hheader]
  decide

/-- Witness for C6: the oversized article page satisfies the hypotheses and
the output stays strictly below the budget. -/
theorem C6_article_truncation_witness :
    0 < remainingAfterHeader cdBigArticle ∧
    remainingAfterHeader cdBigArticle <
      (getTextSizeInBytes bigArticle : Int) ∧
    getTextSizeInBytes (chunkContext cdBigArticle) < MAX_CONTEXT_SIZE :=
  ⟨by rw [cdBigArticle_remaining]; decide,
   by rw [cdBigArticle_remaining, bigArticle_size]; decide,
   (C6_article_truncation cdBigArticle bigArticle rfl rfl
      (by rw [cdBigArticle_remaining]; decide)
      (by rw [cdBigArticle_remaining, bigArticle_size]; decide)).2.2.2.1⟩

end Percepta
